import Mathlib

/-!
Shallow embedding of `server.py`, a local static-file HTTP server: base-directory
resolution (`get_base_dir`), startup validation of the start page, sequential port
probing on the loopback interface, a quiet request handler, and the run loop
(`run_server`) with its shutdown and error paths.

Effectful Python code is modelled by explicit environment passing: an `Env` captures
the runtime facts the program observes (bundle attributes on `sys`, the filesystem
entry for the start page, which ports bind without `OSError`, whether
`webbrowser.open` raises, and how `serve_forever` ends), and `run_server` returns a
`RunResult` recording everything the run did (final working directory, lines printed,
blocking input reads, the bound port, whether `server_close` ran, whether the serve
loop was entered, and how the call ended).
-/

namespace SiteServer

/-- `HOST = "127.0.0.1"` (server.py line 7). -/
def HOST : String := "127.0.0.1"

/-- `PORT = 8000` (server.py line 8). -/
def PORT : Nat := 8000

/-- `START_PAGE = "main.html"` (server.py line 9). -/
def START_PAGE : String := "main.html"

/-- Kind of a filesystem entry: `os.path.exists` is true for both, `os.path.isfile`
only for regular files. -/
inductive FSKind where
  | file : FSKind
  | dir : FSKind
deriving DecidableEq

/-- How the blocking `httpd.serve_forever()` call ends in a given run:
a `KeyboardInterrupt` from the terminal, some other exception, or a normal return. -/
inductive ServeEvent where
  | interrupt : ServeEvent
  | raises : ServeEvent
  | returns : ServeEvent
deriving DecidableEq

/-- The runtime environment observed by one run of the program. -/
structure Env where
  /-- `getattr(sys, "frozen", False)`: the frozen-executable flag (absent reads as false). -/
  frozen : Bool
  /-- `sys._MEIPASS` when the attribute is present: the bundle extraction directory. -/
  meipass : Option String
  /-- `os.path.dirname(os.path.abspath(__file__))`: the absolute directory holding the source file. -/
  sourceDir : String
  /-- The process working directory before `run_server` starts. -/
  initialCwd : String
  /-- The filesystem entry named `main.html` directly under the given directory, if any. -/
  fs : String → Option FSKind
  /-- Whether `socketserver.TCPServer((HOST, port), handler)` binds without raising `OSError`. -/
  bindOk : Nat → Bool
  /-- Whether `webbrowser.open(url)` raises an exception. -/
  browserRaises : Bool
  /-- How `httpd.serve_forever()` ends. -/
  serveEvent : ServeEvent

/-- `get_base_dir` (server.py lines 11-14): the bundle extraction directory when the
frozen flag is set and `_MEIPASS` is present, otherwise the directory containing the
source file. -/
def get_base_dir (env : Env) : String :=
  match env.frozen, env.meipass with
  | true, some meipass => meipass
  | _, _ => env.sourceDir

/-- One step of the port-probing loop (server.py lines 33-41):
`while port < PORT + 20: try: bind; break; except OSError: port += 1`.
The loop body runs at most 20 times (ports `PORT .. PORT+19`); `fuel` bounds the
iterations and is chosen large enough (21) that the recursion always stops at the
`port < PORT + 20` test, never by fuel exhaustion. -/
def probeAux (bindOk : Nat → Bool) : Nat → Nat → Option Nat
  | _port, 0 => none
  | port, fuel + 1 =>
    if port < PORT + 20 then
      if bindOk port then some port else probeAux bindOk (port + 1) fuel
    else none

/-- The whole probing loop starting at `PORT`: the port the listener bound to, or
`none` when the loop exhausted the range and left `httpd = None`. -/
def probePorts (bindOk : Nat → Bool) : Option Nat :=
  probeAux bindOk PORT 21

/-- `url = f"http://{HOST}:{port}/{START_PAGE}"` (server.py line 48). -/
def siteURL (port : Nat) : String :=
  "http://" ++ HOST ++ ":" ++ toString port ++ "/" ++ START_PAGE

/-- The status banner printed after a successful bind (server.py lines 49-56). -/
def banner (base_dir : String) (port : Nat) : List String :=
  ["===================================",
   " Local site server is running",
   "-----------------------------------",
   " Folder: " ++ base_dir,
   " URL:    " ++ siteURL port,
   "===================================",
   "Leave this window open while using the site.",
   "Close it to stop the server.\n"]

/-- How a call to `run_server` ends. -/
inductive Outcome where
  /-- Returned from the missing-start-page branch (server.py line 30). -/
  | fatalMissingPage : Outcome
  /-- Returned from the port-exhaustion branch (server.py line 46). -/
  | fatalPortExhausted : Outcome
  /-- Fell off the end of the function (serve loop ended or was interrupted). -/
  | normalReturn : Outcome
  /-- An exception propagated out of `run_server`. -/
  | exception : Outcome
deriving DecidableEq

/-- Everything one call of `run_server` did to the process. -/
structure RunResult where
  /-- The process working directory when `run_server` ends. -/
  cwd : String
  /-- Lines written to standard output, in order (`print` calls and `input` prompts). -/
  printed : List String
  /-- Number of blocking `input()` reads performed. -/
  inputReads : Nat
  /-- The port the listener was bound on, when one was created. -/
  boundPort : Option Nat
  /-- Whether `httpd.server_close()` ran before `run_server` ended. -/
  listenerClosed : Bool
  /-- Whether the serve loop (`httpd.serve_forever()`) was entered. -/
  served : Bool
  /-- How the call ended. -/
  outcome : Outcome
deriving DecidableEq

/-- `run_server` (server.py lines 23-65). The steps, in source order:
`base_dir = get_base_dir()`; `os.chdir(base_dir)`; the start-page existence check
(`os.path.exists(START_PAGE)`, evaluated in the new working directory `base_dir`);
the port-probing loop; the `httpd is None` exhaustion check; the banner;
`webbrowser.open(url)` (not inside any try, so an exception here propagates without
closing the listener); then `try: serve_forever / except KeyboardInterrupt: pass /
finally: server_close`. -/
def run_server (env : Env) : RunResult :=
  let base_dir := get_base_dir env
  if (env.fs base_dir).isSome = false then
    { cwd := base_dir
      printed := ["ERROR: " ++ START_PAGE ++ " not found in:\n" ++ base_dir,
                  "Press Enter to exit..."]
      inputReads := 1
      boundPort := none
      listenerClosed := false
      served := false
      outcome := .fatalMissingPage }
  else
    match probePorts env.bindOk with
    | none =>
      { cwd := base_dir
        printed := ["ERROR: Could not bind to a port (8000-8019).",
                    "Press Enter to exit..."]
        inputReads := 1
        boundPort := none
        listenerClosed := false
        served := false
        outcome := .fatalPortExhausted }
    | some port =>
      if env.browserRaises then
        { cwd := base_dir
          printed := banner base_dir port
          inputReads := 0
          boundPort := some port
          listenerClosed := false
          served := false
          outcome := .exception }
      else
        match env.serveEvent with
        | .interrupt =>
          { cwd := base_dir
            printed := banner base_dir port
            inputReads := 0
            boundPort := some port
            listenerClosed := true
            served := true
            outcome := .normalReturn }
        | .raises =>
          { cwd := base_dir
            printed := banner base_dir port
            inputReads := 0
            boundPort := some port
            listenerClosed := true
            served := true
            outcome := .exception }
        | .returns =>
          { cwd := base_dir
            printed := banner base_dir port
            inputReads := 0
            boundPort := some port
            listenerClosed := true
            served := true
            outcome := .normalReturn }

/-- The process exit status of `python server.py` (server.py lines 67-68): CPython
exits 0 when the top-level call returns and nonzero when an exception propagates
uncaught out of it. -/
def exitCode (env : Env) : Nat :=
  match (run_server env).outcome with
  | .exception => 1
  | _ => 0

/-! Request-handler model (server.py lines 16-21). `QuietHandler` subclasses
`http.server.SimpleHTTPRequestHandler` and overrides exactly two methods:
`__init__`, which only delegates to the superclass passing `directory` through, and
`log_message`, whose body is `pass`. The library class is abstracted as a
`BaseHandler`: its response computation, and the `log_message` invocations (format
string and arguments) it makes while handling a request — every per-request
diagnostic line of `SimpleHTTPRequestHandler` is emitted through `log_message`. -/

/-- An incoming HTTP request, as far as the handler model needs it. -/
structure Request where
  method : String
  path : String

/-- A log call: the `format` string and the `args` passed to `self.log_message`. -/
structure LogCall where
  format : String
  args : List String

/-- Abstract behavior of the library base class `http.server.SimpleHTTPRequestHandler`
(not part of this repository): what it responds (status code and body, covering path
resolution, MIME inference and error pages) and which `log_message` calls it makes
while handling a request. -/
structure BaseHandler where
  respond : Request → Nat × String
  logCalls : Request → List LogCall

/-- The default `log_message` of the library base class: formats the call and writes
one line to standard error. -/
def defaultLogMessage (call : LogCall) : List String :=
  [call.format ++ String.join call.args]

namespace QuietHandler

/-- `QuietHandler.log_message` (server.py lines 20-21): body is `pass`, so no line is
written to any stream. -/
def log_message (_call : LogCall) : List String := []

/-- The behavior of a `QuietHandler` instance over the base class `base`: the
subclass overrides nothing except `__init__` (pure delegation) and `log_message`,
so responses and log-call sites are inherited from the base class unchanged. -/
def behavior (base : BaseHandler) : BaseHandler :=
  { respond := base.respond
    logCalls := base.logCalls }

end QuietHandler

/-- The diagnostic lines a handler emits for one request: each `log_message` call
site of the (inherited) library code, routed through the dynamically-dispatched
`log_message` implementation `logm`. -/
def diagnosticsFor (logm : LogCall → List String) (h : BaseHandler) (req : Request) :
    List String :=
  (h.logCalls req).flatMap logm

/-! Characterization of the port-probing loop: `probePorts bindOk = some p` exactly
when `p` is the least port in `[PORT, PORT+20)` that binds. -/

theorem probeAux_some_iff (bindOk : Nat → Bool) :
    ∀ (fuel port p : Nat), PORT + 20 ≤ port + fuel →
      (probeAux bindOk port fuel = some p ↔
        (port ≤ p ∧ p < PORT + 20 ∧ bindOk p = true ∧
          ∀ q, port ≤ q → q < p → bindOk q = false)) := by
  intro fuel
  induction fuel with
  | zero =>
    intro port p hle
    simp only [probeAux]
    constructor
    · intro h
      exact Option.noConfusion h
    · rintro ⟨h1, h2, -, -⟩
      omega
  | succ n ih =>
    intro port p hle
    simp only [probeAux]
    by_cases hlt : port < PORT + 20
    · rw [if_pos hlt]
      cases hb : bindOk port with
      | true =>
        rw [if_pos rfl]
        constructor
        · intro h
          injection h with h
          subst h
          exact ⟨Nat.le_refl _, hlt, hb, fun q hq1 hq2 => by omega⟩
        · rintro ⟨h1, h2, h3, h4⟩
          rcases Nat.lt_or_ge port p with hpp | hpp
          · have := h4 port (Nat.le_refl _) hpp
            rw [hb] at this
            exact Bool.noConfusion this
          · have hep : p = port := Nat.le_antisymm (Nat.le_of_lt_succ (Nat.lt_succ_of_le hpp)) h1
            rw [hep]
      | false =>
        rw [if_neg (by decide)]
        rw [ih (port + 1) p (by omega)]
        constructor
        · rintro ⟨h1, h2, h3, h4⟩
          refine ⟨by omega, h2, h3, fun q hq1 hq2 => ?_⟩
          rcases Nat.eq_or_lt_of_le hq1 with h | h
          · rw [← h]
            exact hb
          · exact h4 q h hq2
        · rintro ⟨h1, h2, h3, h4⟩
          have hne : p ≠ port := by
            intro he
            rw [he, hb] at h3
            exact Bool.noConfusion h3
          exact ⟨by omega, h2, h3, fun q hq1 hq2 => h4 q (by omega) hq2⟩
    · rw [if_neg hlt]
      constructor
      · intro h
        exact Option.noConfusion h
      · rintro ⟨h1, h2, -, -⟩
        omega

theorem probePorts_some_iff (bindOk : Nat → Bool) (p : Nat) :
    probePorts bindOk = some p ↔
      (PORT ≤ p ∧ p < PORT + 20 ∧ bindOk p = true ∧
        ∀ q, PORT ≤ q → q < p → bindOk q = false) :=
  probeAux_some_iff bindOk 21 PORT p (by omega)

/-! Concrete environments used to instantiate the theorems. -/

/-- A plain development run: not bundled, start page present as a regular file, every
port free, browser opens fine, serve loop ends with Ctrl-C. -/
def envBase : Env :=
  { frozen := false
    meipass := none
    sourceDir := "/srv/site"
    initialCwd := "/home/user"
    fs := fun _ => some .file
    bindOk := fun _ => true
    browserRaises := false
    serveEvent := .interrupt }

/-- Like `envBase` but port 8000 is occupied and everything above is free. -/
def env8000Busy : Env :=
  { envBase with bindOk := fun p => decide (8000 < p) }

/-- Like `envBase` but every port in existence is occupied. -/
def envAllBusy : Env :=
  { envBase with bindOk := fun _ => false }

/-- Like `envBase` but no entry named `main.html` exists anywhere. -/
def envNoPage : Env :=
  { envBase with fs := fun _ => none }

/-- Like `envBase` but `webbrowser.open` raises. -/
def envBrowserFail : Env :=
  { envBase with browserRaises := true }

/-- Like `envBase` but `main.html` is a subdirectory, not a regular file. -/
def envPageIsDir : Env :=
  { envBase with fs := fun _ => some .dir }

/-- A bundled run: frozen flag set and `_MEIPASS` present. -/
def envFrozen : Env :=
  { envBase with frozen := true, meipass := some "/tmp/_MEI12345" }

/-! Claim theorems. -/

/-- C1: Port allocation probes loopback ports in ascending order starting at 8000
with exclusive upper bound 8020, treating each per-port bind failure as non-fatal,
and the first successful bind terminates the search (`probePorts` returns exactly
the least bindable port in `[8000, 8020)`); in particular, in every environment
where the start page is present, port 8000 is occupied and 8001 is free, the
allocator binds to 8001 and the URL line printed in the banner carries port 8001. -/
theorem C1_port_allocation (env : Env)
    (hpage : (env.fs (get_base_dir env)).isSome = true)
    (h0 : env.bindOk 8000 = false) (h1 : env.bindOk 8001 = true) :
    (∀ (f : Nat → Bool) (p : Nat),
        probePorts f = some p ↔
          (8000 ≤ p ∧ p < 8020 ∧ f p = true ∧ ∀ q, 8000 ≤ q → q < p → f q = false)) ∧
    (run_server env).boundPort = some 8001 ∧
    (" URL:    " ++ siteURL 8001) ∈ (run_server env).printed ∧
    siteURL 8001 = "http://127.0.0.1:8001/main.html" := by
  have hchar : ∀ (f : Nat → Bool) (p : Nat),
      probePorts f = some p ↔
        (8000 ≤ p ∧ p < 8020 ∧ f p = true ∧ ∀ q, 8000 ≤ q → q < p → f q = false) :=
    fun f p => probePorts_some_iff f p
  have h8001 : probePorts env.bindOk = some 8001 := by
    rw [hchar]
    refine ⟨by omega, by omega, h1, fun q hq1 hq2 => ?_⟩
    have hq : q = 8000 := by omega
    rw [hq]
    exact h0
  refine ⟨hchar, ?_, ?_, by decide⟩ <;>
    cases hbr : env.browserRaises <;> cases hse : env.serveEvent <;>
      simp [run_server, hpage, h8001, hbr, hse, banner]

/-- C1 witness: in the concrete environment where exactly port 8000 is busy, the
server binds to 8001 and prints its URL. -/
theorem C1_port_allocation_witness :
    (run_server env8000Busy).boundPort = some 8001 ∧
    (" URL:    " ++ siteURL 8001) ∈ (run_server env8000Busy).printed :=
  ⟨(C1_port_allocation env8000Busy rfl rfl rfl).2.1,
   (C1_port_allocation env8000Busy rfl rfl rfl).2.2.1⟩

/-- C2: when the start page is present but binding fails on all 20 candidate ports
8000..8019, `run_server` prints the error naming the searched range, blocks on one
line of input, and returns from the exhaustion branch without serving any request
and without holding any bound listener. -/
theorem C2_port_exhaustion (env : Env)
    (hpage : (env.fs (get_base_dir env)).isSome = true)
    (hall : ∀ p, 8000 ≤ p → p < 8020 → env.bindOk p = false) :
    (run_server env).printed =
      ["ERROR: Could not bind to a port (8000-8019).", "Press Enter to exit..."] ∧
    (run_server env).inputReads = 1 ∧
    (run_server env).served = false ∧
    (run_server env).boundPort = none ∧
    (run_server env).listenerClosed = false ∧
    (run_server env).outcome = .fatalPortExhausted := by
  have hnone : probePorts env.bindOk = none := by
    cases hp : probePorts env.bindOk with
    | none => rfl
    | some p =>
      have hc := (probePorts_some_iff env.bindOk p).1 hp
      have h8000 : (8000 : Nat) ≤ p := hc.1
      have hlt : p < 8020 := hc.2.1
      have := hall p h8000 hlt
      rw [hc.2.2.1] at this
      exact Bool.noConfusion this
  simp [run_server, hpage, hnone]

/-- C2 witness: with every port occupied, the run ends in the exhaustion branch. -/
theorem C2_port_exhaustion_witness :
    (run_server envAllBusy).outcome = .fatalPortExhausted ∧
    (run_server envAllBusy).boundPort = none :=
  ⟨(C2_port_exhaustion envAllBusy rfl (fun _ _ _ => rfl)).2.2.2.2.2,
   (C2_port_exhaustion envAllBusy rfl (fun _ _ _ => rfl)).2.2.2.1⟩

/-- C3: when the resolved base directory has no entry named `main.html`,
`run_server` prints the error naming the missing file and the searched directory,
blocks on one line of input, and returns without constructing any listener; port
allocation is never reached — the result does not depend on the bind behavior at
all. -/
theorem C3_missing_start_page (env : Env)
    (hmiss : env.fs (get_base_dir env) = none) :
    (run_server env).printed =
      ["ERROR: " ++ START_PAGE ++ " not found in:\n" ++ get_base_dir env,
       "Press Enter to exit..."] ∧
    (run_server env).inputReads = 1 ∧
    (run_server env).boundPort = none ∧
    (run_server env).listenerClosed = false ∧
    (run_server env).served = false ∧
    (run_server env).outcome = .fatalMissingPage ∧
    (∀ f : Nat → Bool, run_server { env with bindOk := f } = run_server env) := by
  have hbd : ∀ f : Nat → Bool, get_base_dir { env with bindOk := f } = get_base_dir env :=
    fun _ => rfl
  refine ⟨?_, ?_, ?_, ?_, ?_, ?_, ?_⟩ <;>
    simp [run_server, hmiss, hbd]

/-- C3 witness: in the concrete environment with no `main.html` anywhere, the run
ends in the missing-page branch with no listener. -/
theorem C3_missing_start_page_witness :
    (run_server envNoPage).outcome = .fatalMissingPage ∧
    (run_server envNoPage).boundPort = none :=
  ⟨(C3_missing_start_page envNoPage rfl).2.2.2.2.2.1,
   (C3_missing_start_page envNoPage rfl).2.2.1⟩

/-- C4 counterexample: the claim that the listener is closed on every exit path
reachable after its creation — including a failure of the browser-launch call — is
false. `webbrowser.open(url)` (server.py line 58) runs after the listener is created
(line 38) but outside the `try/finally` (lines 60-65), so in an environment where it
raises, `run_server` ends by exception with the listener bound and never closed. -/
theorem C4_close_counterexample :
    (run_server envBrowserFail).boundPort = some 8000 ∧
    (run_server envBrowserFail).outcome = .exception ∧
    (run_server envBrowserFail).listenerClosed = false :=
  ⟨rfl, rfl, rfl⟩

/-- C4 amended: on every exit path of `run_server` that goes through the serve loop
— clean interrupt, normal fall-through, or an exception raised inside
`serve_forever` — the listener is closed before `run_server` exits; but when the
browser-launch call raises after the listener is created, the exception propagates
out of `run_server` without the listener being closed. -/
theorem C4_listener_close (env : Env) :
    (env.browserRaises = false →
      (run_server env).boundPort.isSome = true →
      (run_server env).listenerClosed = true) ∧
    (env.browserRaises = true →
      (run_server env).boundPort.isSome = true →
      (run_server env).listenerClosed = false ∧ (run_server env).outcome = .exception) := by
  constructor <;>
    intro hbr <;>
      cases hpage : (env.fs (get_base_dir env)).isSome <;>
        cases hp : probePorts env.bindOk <;>
          cases hse : env.serveEvent <;>
            simp [run_server, hpage, hp, hbr, hse]

/-- C4 amended witness: with a clean interrupt the listener is closed; with a raising
browser launch it is not. -/
theorem C4_listener_close_witness :
    (run_server envBase).listenerClosed = true ∧
    (run_server envBrowserFail).listenerClosed = false :=
  ⟨(C4_listener_close envBase).1 rfl rfl,
   ((C4_listener_close envBrowserFail).2 rfl rfl).1⟩

/-- C5: a `KeyboardInterrupt` raised while the server is blocked in the serve loop is
caught and treated as a clean shutdown: `run_server` closes the listener and returns
normally, not by exception. -/
theorem C5_interrupt_clean_shutdown (env : Env)
    (hpage : (env.fs (get_base_dir env)).isSome = true)
    (hport : (probePorts env.bindOk).isSome = true)
    (hbr : env.browserRaises = false)
    (hint : env.serveEvent = .interrupt) :
    (run_server env).served = true ∧
    (run_server env).listenerClosed = true ∧
    (run_server env).outcome = .normalReturn := by
  cases hp : probePorts env.bindOk with
  | none => rw [hp] at hport; exact Bool.noConfusion hport
  | some p => refine ⟨?_, ?_, ?_⟩ <;> simp [run_server, hpage, hp, hbr, hint]

/-- C5 witness: the base environment ends its serve loop by interrupt and shuts down
cleanly. -/
theorem C5_interrupt_clean_shutdown_witness :
    (run_server envBase).listenerClosed = true ∧
    (run_server envBase).outcome = .normalReturn :=
  ⟨(C5_interrupt_clean_shutdown envBase rfl rfl rfl rfl).2.1,
   (C5_interrupt_clean_shutdown envBase rfl rfl rfl rfl).2.2⟩

/-- C6: both fatal startup conditions — missing start page and port exhaustion —
make `run_server` return normally rather than raise, so the process exits 0 on those
paths, just as on every run where the browser launch and the serve loop do not raise
(clean interrupt or normal fall-through); no non-zero exit code distinguishes the
fatal conditions. -/
theorem C6_exit_zero_on_fatal (env : Env) :
    ((env.fs (get_base_dir env) = none ∨ ∀ p, 8000 ≤ p → p < 8020 → env.bindOk p = false) →
      (run_server env).outcome ≠ .exception ∧ exitCode env = 0) ∧
    ((env.browserRaises = false ∧ env.serveEvent ≠ .raises) → exitCode env = 0) := by
  have hchar := probePorts_some_iff env.bindOk
  constructor
  · rintro (hmiss | hall)
    · constructor <;> simp [exitCode, run_server, hmiss]
    · have hnone : probePorts env.bindOk = none := by
        cases hp : probePorts env.bindOk with
        | none => rfl
        | some p =>
          have hc := (hchar p).1 hp
          have := hall p hc.1 hc.2.1
          rw [hc.2.2.1] at this
          exact Bool.noConfusion this
      cases hpage : (env.fs (get_base_dir env)).isSome <;>
        constructor <;> simp [exitCode, run_server, hpage, hnone]
  · rintro ⟨hbr, hse⟩
    cases hpage : (env.fs (get_base_dir env)).isSome <;>
      cases hp : probePorts env.bindOk <;>
        cases hsev : env.serveEvent <;>
          first
          | (rw [hsev] at hse; exact absurd rfl hse)
          | simp [exitCode, run_server, hpage, hp, hbr, hsev]

/-- C6 witness: the missing-page run, the all-ports-busy run and the clean-interrupt
run all exit 0. -/
theorem C6_exit_zero_on_fatal_witness :
    exitCode envNoPage = 0 ∧ exitCode envAllBusy = 0 ∧ exitCode envBase = 0 :=
  ⟨((C6_exit_zero_on_fatal envNoPage).1 (Or.inl rfl)).2,
   ((C6_exit_zero_on_fatal envAllBusy).1 (Or.inr (fun _ _ _ => rfl))).2,
   (C6_exit_zero_on_fatal envBase).2 ⟨rfl, fun h => ServeEvent.noConfusion h⟩⟩

/-- C7: the base-directory resolver is total (a Lean function) and branches exactly
as claimed: when the frozen flag is set and the bundle-extraction attribute is
present it returns the extraction directory, and in every other case — either
indicator absent — it returns the absolute directory containing the program's own
source file. -/
theorem C7_base_dir_resolution (env : Env) :
    (∀ p, env.frozen = true → env.meipass = some p → get_base_dir env = p) ∧
    ((env.frozen = false ∨ env.meipass = none) → get_base_dir env = env.sourceDir) := by
  constructor
  · intro p hf hm
    simp [get_base_dir, hf, hm]
  · rintro (hf | hm)
    · cases hm : env.meipass <;> simp [get_base_dir, hf, hm]
    · cases hf : env.frozen <;> simp [get_base_dir, hf, hm]

/-- C7 witness: the bundled environment resolves to the extraction directory and the
plain environment to the source directory. -/
theorem C7_base_dir_resolution_witness :
    get_base_dir envFrozen = "/tmp/_MEI12345" ∧ get_base_dir envBase = "/srv/site" :=
  ⟨(C7_base_dir_resolution envFrozen).1 "/tmp/_MEI12345" rfl rfl,
   (C7_base_dir_resolution envBase).2 (Or.inl rfl)⟩

/-- C8: for every request handled by a `QuietHandler`, no per-request diagnostic
line is emitted to any stream — the overridden `log_message` is a no-op, so every
log-call site of the inherited library code produces nothing — and no other handler
behavior is overridden: the response (path resolution, MIME inference, error pages)
is exactly the base class's. -/
theorem C8_log_suppression (base : BaseHandler) (req : Request) :
    diagnosticsFor QuietHandler.log_message (QuietHandler.behavior base) req = [] ∧
    (QuietHandler.behavior base).respond req = base.respond req := by
  constructor
  · simp [diagnosticsFor, QuietHandler.log_message, QuietHandler.behavior]
  · rfl

/-- C9 counterexample: the claim that `run_server` leaves the process working
directory unchanged is false. `os.chdir(base_dir)` (server.py line 25) sets the cwd
to the base directory on every run: starting from `/home/user` with the sources in
`/srv/site`, the run ends with cwd `/srv/site`. -/
theorem C9_cwd_counterexample :
    envBase.initialCwd = "/home/user" ∧
    (run_server envBase).cwd = "/srv/site" ∧
    (run_server envBase).cwd ≠ envBase.initialCwd := by
  refine ⟨rfl, rfl, by decide⟩

/-- C9 amended: `run_server` does mutate one piece of process-wide state outside the
listener's lifecycle — it sets the process working directory to the resolved base
directory (via `os.chdir`) on every path, fatal or not, and never restores it. -/
theorem C9_cwd_set_to_base_dir (env : Env) :
    (run_server env).cwd = get_base_dir env := by
  cases hpage : (env.fs (get_base_dir env)).isSome <;>
    cases hp : probePorts env.bindOk <;>
      cases hbr : env.browserRaises <;>
        cases hse : env.serveEvent <;>
          simp [run_server, hpage, hp, hbr, hse]

/-- C10: startup validation uses `os.path.exists`, which tests only the existence of
a filesystem entry named `main.html`, not that it is a regular file: when the base
directory contains a subdirectory of that name, validation nevertheless succeeds and
the run proceeds to port allocation (binding port 8000 when free) and to serving. -/
theorem C10_exists_not_isfile (env : Env)
    (hdir : env.fs (get_base_dir env) = some .dir) :
    (run_server env).outcome ≠ .fatalMissingPage ∧
    (env.bindOk 8000 = true →
      (run_server env).boundPort = some 8000 ∧
      (env.browserRaises = false → (run_server env).served = true)) := by
  have hpage : (env.fs (get_base_dir env)).isSome = true := by rw [hdir]; rfl
  have hPORT : PORT = 8000 := rfl
  constructor
  · cases hp : probePorts env.bindOk <;>
      cases hbr : env.browserRaises <;>
        cases hse : env.serveEvent <;>
          simp [run_server, hpage, hp, hbr, hse]
  · intro hb
    have hp : probePorts env.bindOk = some 8000 :=
      (probePorts_some_iff env.bindOk 8000).2
        ⟨by omega, by omega, hb, fun q hq1 hq2 => by omega⟩
    constructor
    · cases hbr : env.browserRaises <;>
        cases hse : env.serveEvent <;>
          simp [run_server, hpage, hp, hbr, hse]
    · intro hbr
      cases hse : env.serveEvent <;>
        simp [run_server, hpage, hp, hbr, hse]

/-- C10 witness: with `main.html` present only as a subdirectory and all ports free,
the run binds port 8000 and serves. -/
theorem C10_exists_not_isfile_witness :
    (run_server envPageIsDir).outcome ≠ .fatalMissingPage ∧
    (run_server envPageIsDir).boundPort = some 8000 ∧
    (run_server envPageIsDir).served = true :=
  ⟨(C10_exists_not_isfile envPageIsDir rfl).1,
   ((C10_exists_not_isfile envPageIsDir rfl).2 rfl).1,
   ((C10_exists_not_isfile envPageIsDir rfl).2 rfl).2 rfl⟩

end SiteServer
